import Mathlib

/-!
A verification development for the FairMQ device lifecycle engine
(`src/fairmq/Device.cxx`) and the copypush `Sink` example device
(`src/examples/copypush/sink.cxx`).

Modelling conventions.  C++ unsigned 64-bit integers are modelled as `Nat`
with explicit `% 2 ^ 64` arithmetic where wrap-around matters; the
`double` arithmetic of the rate logger is modelled over `ℚ`;
`std::string` is modelled by `String`, with the `std::string` index
arithmetic carried out on the underlying character list.  External
collaborators whose code is not part of the sources (transports, the
config store, the state-machine worker thread, user hooks, the hostname
resolver) enter as explicit oracle parameters; cooperative checks of
`NewStatePending()` read a `Nat → Bool` oracle at successive clock
indices.
-/

namespace FairMQ

/-- Lifecycle states of the device state machine. -/
inductive State where
  | Ok | Idle | InitializingDevice | Initialized | Binding | Bound | Connecting
  | DeviceReady | InitializingTask | Ready | Running | ResettingTask
  | ResettingDevice | Exiting | Error
deriving DecidableEq

/-- State machine transitions requested via `ChangeStateOrThrow`. -/
inductive Transition where
  | Auto | InitDevice | CompleteInit | Bind | Connect | InitTask | Run | Stop
  | ResetTask | ResetDevice | End | ErrorFound
deriving DecidableEq

/-- The slice of `fair::mq::Channel` that `Device.cxx` reads: identity
(`GetName`, `GetPrefix`, `GetIndex`), socket method and address.
`GetIndex` is kept in its string form since `Device.cxx` only ever
concatenates it into config keys. -/
structure Channel where
  fName : String
  pfx : String
  idx : String
  fMethod : String
  fAddress : String
deriving DecidableEq

/-- The config key `chans.<prefix>.<index>.address` built in
`Device::ConnectWrapper` and `Device::AttachChannel`. -/
def addressKey (c : Channel) : String :=
  "chans." ++ c.pfx ++ "." ++ c.idx ++ ".address"

/-! ### Transport pool (`Device::AddTransport`) -/

/-- Transport kinds (`fair::mq::Transport`). -/
inductive TKind where
  | DEFAULT | ZEROMQ | SHMEM | OFI
deriving DecidableEq

/-- The device's transport pool: `fTransports` keyed by transport kind,
with transport instances identified by construction order (`nextId`
counts `TransportFactory::CreateTransportFactory` calls), together with
the device's `fDefaultTransportType`. -/
structure TransportPool where
  defaultTransportType : TKind
  transports : List (TKind × Nat)
  nextId : Nat
deriving DecidableEq

/-- `fTransports.find(transport)` on the pool's association list. -/
def poolLookup : List (TKind × Nat) → TKind → Option Nat
  | [], _ => none
  | (k, v) :: rest, t => if k = t then some v else poolLookup rest t

/-- `Device::AddTransport`: substitute the device default for `DEFAULT`,
return an existing pooled instance if present, otherwise construct a new
transport instance, insert it and return it.  (The surrounding
`lock_guard` on `fTransportMtx` serialises these steps; the model is that
serialised execution.) -/
def AddTransport (p : TransportPool) (transport : TKind) : Nat × TransportPool :=
  let tr := if transport = TKind.DEFAULT then p.defaultTransportType else transport
  match poolLookup p.transports tr with
  | some existing => (existing, p)
  | none =>
    (p.nextId,
      { p with transports := (tr, p.nextId) :: p.transports, nextId := p.nextId + 1 })

/-- `n + 1` successive `Device::AddTransport` calls with the same kind,
threading the pool; returns the last call's result. -/
def addTransportN (p : TransportPool) (k : TKind) : Nat → Nat × TransportPool
  | 0 => AddTransport p k
  | n + 1 => AddTransport (addTransportN p k n).2 k

/-! ### Data dispatch building blocks -/

/-- `Device::HandleMsgInput`: create a message, `Receive` into it, and on a
non-negative return invoke the registered per-message callback.  The first
component is the returned `proceed` value, the second records whether the
user callback was invoked. -/
def HandleMsgInputM (receiveResult : Int) (callbackResult : Bool) : Bool × Bool :=
  if 0 ≤ receiveResult then (callbackResult, true) else (false, false)

/-- `Device::HandleMultipartInput`: like `HandleMsgInputM` but receiving a
`Parts` collection and invoking the multipart callback. -/
def HandleMultipartInputM (receiveResult : Int) (callbackResult : Bool) : Bool × Bool :=
  if 0 ≤ receiveResult then (callbackResult, true) else (false, false)

/-- The `while (!NewStatePending() && proceed) { proceed = step(); }` loop
shape used by `Device::HandleSingleChannelInput` and by the
`ConditionalRun` loop of `Device::RunWrapper`.  `pending k` is the value
of the `NewStatePending()` check before iteration `k`, `step k` the
`proceed` value produced by iteration `k`.  Returns the number of
iterations executed, or `none` when `fuel` ran out before the loop
exited. -/
def recvLoop (pending step : Nat → Bool) : Nat → Nat → Option Nat
  | 0, _ => none
  | fuel + 1, k =>
    if pending k then some k
    else if step k then recvLoop pending step fuel (k + 1)
    else some (k + 1)

/-! ### `Device::InitWrapper` sub-channel classification -/

/-- The bind-address defaulting in `Device::InitWrapper`: when a binding
sub-channel's address is `"unspecified"` or empty, derive it from the
configured network interface (`ifaceIP = some ip` models a successful
`tools::getInterfaceIP`, after resolving a `"default"` interface name via
the default route), falling back to `tcp://*:1` when route detection
throws `DefaultRouteDetectionError` (`ifaceIP = none`). -/
def defaultBindAddress (ifaceIP : Option String) (address : String) : String :=
  if address = "unspecified" ∨ address = "" then
    match ifaceIP with
    | some ip => "tcp://" ++ ip ++ ":1"
    | none => "tcp://*:1"
  else address

/-- Where `Device::InitWrapper` sends one sub-channel: the binding working
list (with the possibly defaulted address), the connecting working list,
or the thrown configuration error. -/
inductive InitDisposition where
  | binding (effectiveAddress : String)
  | connecting
  | configError
deriving DecidableEq

/-- `fAddress.find_first_of("@+>") != std::string::npos`: does the
address contain one of the method-modifier characters? -/
def hasSocketModifier (address : String) : Bool :=
  address.data.any (fun ch => ch == '@' || ch == '+' || ch == '>')

/-- The per-sub-channel dispatch of `Device::InitWrapper`:
`fMethod == "bind"` goes to the binding list (defaulting the address
first); `fMethod == "connect"` goes to the connecting list; otherwise a
sub-channel whose address contains one of `@`, `+`, `>`
(`find_first_of("@+>") != npos`) also goes to the connecting list; any
remaining sub-channel raises the "Socket method ... not specified"
configuration error. -/
def classifySubChannel (ifaceIP : Option String) (c : Channel) : InitDisposition :=
  if c.fMethod = "bind" then InitDisposition.binding (defaultBindAddress ifaceIP c.fAddress)
  else if c.fMethod = "connect" then InitDisposition.connecting
  else if hasSocketModifier c.fAddress then InitDisposition.connecting
  else InitDisposition.configError

/-- Folding `InitWrapper`'s sub-channel loop over a sub-channel sequence:
either the two uninitialized working lists
(`fUninitializedBindingChannels`, `fUninitializedConnectingChannels`) in
iteration order, or the configuration error thrown at the first
sub-channel without a socket method. -/
def initChannelLists (ifaceIP : Option String) :
    List Channel → Except String (List Channel × List Channel)
  | [] => Except.ok ([], [])
  | c :: rest =>
    match classifySubChannel ifaceIP c with
    | InitDisposition.binding a =>
      (initChannelLists ifaceIP rest).map (fun bc => ({ c with fAddress := a } :: bc.1, bc.2))
    | InitDisposition.connecting =>
      (initChannelLists ifaceIP rest).map (fun bc => (bc.1, c :: bc.2))
    | InitDisposition.configError =>
      Except.error
        ("Cannot update configuration. Socket method (bind/connect) for channel "
          ++ c.fName ++ " not specified.")

/-! ### Rate logger (`Device::LogSocketRates`) -/

/-- Unsigned 64-bit subtraction `newVal - oldVal` as performed on the
`unsigned long` counters of `LogSocketRates` (operands already reduced
`% 2 ^ 64`). -/
def u64diff (newVal oldVal : Nat) : Nat := (newVal + 2 ^ 64 - oldVal) % 2 ^ 64

/-- Per-channel state of the rate-logger loop: the channel's
`fRateLogging` value (`logIntervals` entry), its `intervalCounters`
entry, and the counter baselines (`bytesIn`, `msgIn`, `bytesOut`,
`msgOut`) snapshotted at the last roll. -/
structure RateChannelState where
  interval : Nat
  counter : Nat
  bytesIn : Nat
  msgIn : Nat
  bytesOut : Nat
  msgOut : Nat
deriving DecidableEq

/-- One logged line of `LogSocketRates` (`double` arithmetic modelled over
`ℚ`). -/
structure RateLogLine where
  mbPerSecIn : ℚ
  msgPerSecIn : ℚ
  mbPerSecOut : ℚ
  msgPerSecOut : ℚ
deriving DecidableEq

/-- One wake of the `LogSocketRates` loop for one rate-logged channel:
increment the interval counter; when it reaches the channel's
`fRateLogging` value reset it to zero and, if `msSinceLastLog > 0`, read
the current channel counters, compute the four rates, roll the baselines
to the current values and emit a log line. -/
def logSocketRatesWake (msSinceLastLog : Nat)
    (curBytesIn curMsgIn curBytesOut curMsgOut : Nat)
    (st : RateChannelState) : RateChannelState × Option RateLogLine :=
  let counter := st.counter + 1
  if counter = st.interval then
    if 0 < msSinceLastLog then
      let line : RateLogLine :=
        { mbPerSecIn :=
            ((u64diff curBytesIn st.bytesIn : ℚ) / (1000 * 1000)) / (msSinceLastLog : ℚ) * 1000
          msgPerSecIn := (u64diff curMsgIn st.msgIn : ℚ) / (msSinceLastLog : ℚ) * 1000
          mbPerSecOut :=
            ((u64diff curBytesOut st.bytesOut : ℚ) / (1000 * 1000)) / (msSinceLastLog : ℚ) * 1000
          msgPerSecOut := (u64diff curMsgOut st.msgOut : ℚ) / (msSinceLastLog : ℚ) * 1000 }
      ({ st with counter := 0, bytesIn := curBytesIn, msgIn := curMsgIn,
                 bytesOut := curBytesOut, msgOut := curMsgOut }, some line)
    else
      ({ st with counter := 0 }, none)
  else
    ({ st with counter := counter }, none)

/-! ### `Device::AttachChannel` endpoint processing -/

/-- `boost::algorithm::split` of a character sequence on `,` (no token
compression: `""` yields one empty token, `"a,"` yields `["a", ""]`). -/
def splitCommaList : List Char → List (List Char)
  | [] => [[]]
  | c :: rest =>
    if c = ',' then [] :: splitCommaList rest
    else
      match splitCommaList rest with
      | t :: ts => (c :: t) :: ts
      | [] => [[c]]

/-- Helper for the `find(':')` split: locate the first `:` and return the
characters before and after it, or `none` when absent. -/
def splitAtColonAux : List Char → Option (List Char × List Char)
  | [] => none
  | c :: rest =>
    if c = ':' then some ([], rest)
    else
      match splitAtColonAux rest with
      | some hp => some (c :: hp.1, hp.2)
      | none => none

/-- The `hostPart` / `portPart` split of `AttachChannel`:
`pos = find(':')`, `hostPart = substr(0, pos)`,
`portPart = substr(pos + 1)`.  When no `:` occurs, `find` returns `npos`
and `substr(npos + 1)` wraps around to `substr(0)`, so both components
are the whole string. -/
def hostPortOf (s : List Char) : List Char × List Char :=
  match splitAtColonAux s with
  | some hp => hp
  | none => (s, s)

/-- Oracles for the external collaborators of `Device::AttachChannel`:
`resolve` models `tools::getIpFromHostname` (empty string = resolution
failure); `bindResult` models `Channel::BindEndpoint`, returning `none`
on failure and `some actual` on success, where `actual` is the actually
assigned address written back into the endpoint (modelled from the spec
insofar as "the transport may have chosen a port"); `connectOk` models
`Channel::ConnectEndpoint`. -/
structure AttachEnv where
  resolve : String → String
  bindResult : String → Option String
  connectOk : String → Bool

/-- The modifier scan at the top of the endpoint loop of
`Device::AttachChannel`: `endpoint[0] == '+' || endpoint[0] == '>'`
forces connect, `endpoint[0] == '@'` forces bind, and the modifier
character is stripped from the working address.  Returns
`(bind, connectionModifier, address)`.  (For an empty endpoint,
`std::string::operator[]` at index 0 yields the null character, so no
modifier is detected.) -/
def parseModifier (defaultBind : Bool) (endpoint : String) : Bool × Bool × String :=
  match endpoint.data with
  | [] => (defaultBind, false, endpoint)
  | c :: rest =>
    if c = '+' ∨ c = '>' then (false, true, String.mk rest)
    else if c = '@' then (true, true, String.mk rest)
    else (defaultBind, false, endpoint)

/-- The tcp-host resolution step of `Device::AttachChannel`: for an
address whose first six characters are `tcp://`
(`address.compare(0, 6, "tcp://") == 0`), unless binding to the wildcard
host `*`, resolve the host part via `tools::getIpFromHostname` and
substitute the resolved IP; an empty resolution fails the whole
channel (`none`).  Non-tcp addresses pass through untouched. -/
def resolveTcp (resolve : String → String) (bind : Bool) (address : String) : Option String :=
  if address.data.take 6 = ['t', 'c', 'p', ':', '/', '/'] then
    let addressString := address.data.drop 6
    let hp := hostPortOf addressString
    if bind ∧ String.mk hp.1 = "*" then some address
    else
      let resolvedHost := resolve (String.mk hp.1)
      if resolvedHost = "" then none
      else some ("tcp://" ++ resolvedHost ++ ":" ++ String.mk hp.2)
  else some address

/-- The attach step of the endpoint loop: `BindEndpoint` or
`ConnectEndpoint` on the (possibly resolved) address, then the
book-keeping `endpoint.clear(); if (connectionModifier)
endpoint.push_back(bind ? '@' : '+'); endpoint += address;` with the
actual address on a successful bind.  `none` models the `return false`
taken on an attach failure. -/
def attachEndpointStage (bindResult : String → Option String) (connectOk : String → Bool)
    (bind connectionModifier : Bool) (address : String) : Option String :=
  if bind then
    match bindResult address with
    | some actual => some ((if connectionModifier then "@" else "") ++ actual)
    | none => none
  else
    if connectOk address then some ((if connectionModifier then "+" else "") ++ address)
    else none

/-- One full endpoint of the `Device::AttachChannel` loop: modifier scan,
tcp host resolution, attach and book-keeping.  `none` models the early
`return false` on an empty host resolution or a failed attach. -/
def processEndpoint (env : AttachEnv) (defaultBind : Bool) (endpoint : String) : Option String :=
  match resolveTcp env.resolve (parseModifier defaultBind endpoint).1
      (parseModifier defaultBind endpoint).2.2 with
  | none => none
  | some address =>
    attachEndpointStage env.bindResult env.connectOk (parseModifier defaultBind endpoint).1
      (parseModifier defaultBind endpoint).2.1 address

/-- The endpoint loop of `Device::AttachChannel` over the split endpoint
list, stopping at the first failing endpoint. -/
def attachEndpoints (env : AttachEnv) (defaultBind : Bool) : List String → Option (List String)
  | [] => some []
  | e :: rest =>
    match processEndpoint env defaultBind e with
    | none => none
    | some done =>
      match attachEndpoints env defaultBind rest with
      | none => none
      | some rest2 => some (done :: rest2)

/-- `boost::algorithm::join(endpoints, ",")`. -/
def joinComma : List String → String
  | [] => ""
  | [e] => e
  | e :: rest => e ++ "," ++ joinComma rest

/-- Observable outcome of `Device::AttachChannel`: the returned success
flag, the book-kept endpoint strings, the `UpdateAddress` argument (when
called) and the `fConfig->SetProperty` key/value pair (when called). -/
structure AttachOutcome where
  success : Bool
  endpoints : List String
  updatedAddress : Option String
  configSet : Option (String × String)
deriving DecidableEq

/-- `Device::AttachChannel`: split the channel address on `,`, process
every endpoint, rejoin with `,`, and if the composite changed call
`chan.UpdateAddress` and persist it under
`chans.<prefix>.<index>.address` via `fConfig->SetProperty`. -/
def AttachChannel (env : AttachEnv) (chan : Channel) : AttachOutcome :=
  match attachEndpoints env (chan.fMethod = "bind")
      ((splitCommaList chan.fAddress.data).map String.mk) with
  | none => { success := false, endpoints := [], updatedAddress := none, configSet := none }
  | some eps =>
    if joinComma eps ≠ chan.fAddress then
      { success := true, endpoints := eps, updatedAddress := some (joinComma eps),
        configSet := some (addressKey chan, joinComma eps) }
    else
      { success := true, endpoints := eps, updatedAddress := none, configSet := none }

/-! ### `Device::AttachChannels` and the connect retry loop -/

/-- `Device::AttachChannels(chans)`: iterate over the working list; for a
channel that validates, `Init()` it and try `AttachChannel`, erasing it
from the list on success; failing or non-validating channels stay.
`validate` and `attachOk` are oracles for `Channel::Validate` and for the
success of `Device::AttachChannel` (modelled in detail separately).
Returns the channels remaining in the list. -/
def AttachChannelsM (validate attachOk : Channel → Bool) : List Channel → List Channel
  | [] => []
  | c :: rest =>
    if validate c then
      if attachOk c then AttachChannelsM validate attachOk rest
      else c :: AttachChannelsM validate attachOk rest
    else c :: AttachChannelsM validate attachOk rest

/-- The between-attempts refresh of `Device::ConnectWrapper`: re-read
`chans.<prefix>.<index>.address` from the config and, when the value
differs from the channel's current address, call
`chan->UpdateAddress(newAddress)`.  The second component records whether
`UpdateAddress` was called. -/
def updateFromConfig (cfg : String → String) (c : Channel) : Channel × Bool :=
  let newAddress := cfg (addressKey c)
  if newAddress ≠ c.fAddress then ({ c with fAddress := newAddress }, true) else (c, false)

/-- Result of the `ConnectWrapper` retry loop: either the loop exited
(channel list emptied or a new state pending) or the attempt bound was
exceeded and the handler threw, with the still-unresolved channels that
it logs.  Both carry the clock index at loop exit and the final
`numAttempts` value. -/
inductive ConnectOutcome where
  | done (remaining : List Channel) (clock : Nat) (numAttempts : Nat)
  | timeout (unresolved : List Channel) (clock : Nat) (numAttempts : Nat)
deriving DecidableEq

/-- The retry loop of `Device::ConnectWrapper` after the first attach
attempt: while channels remain and no state is pending, sleep 50 ms,
refresh every remaining channel's address from the config, throw once
`numAttempts++ > maxAttempts`, else run `AttachChannels` again.  The
clock `t` indexes one loop iteration: the `NewStatePending()` read, the
config snapshot and the attach attempt of that iteration. -/
def connectLoop (pending : Nat → Bool) (cfg : Nat → String → String)
    (validate attachOk : Nat → Channel → Bool) (maxAttempts : Nat) :
    Nat → List Channel → Nat → ConnectOutcome
  | numAttempts, chans, t =>
    if chans.isEmpty then ConnectOutcome.done chans t numAttempts
    else if pending t then ConnectOutcome.done chans t numAttempts
    else
      let refreshed := chans.map (fun c => (updateFromConfig (cfg t) c).1)
      if h : maxAttempts < numAttempts then ConnectOutcome.timeout refreshed t numAttempts
      else
        connectLoop pending cfg validate attachOk maxAttempts
          (numAttempts + 1) (AttachChannelsM (validate t) (attachOk t) refreshed) (t + 1)
termination_by numAttempts _ _ => maxAttempts + 1 - numAttempts
decreasing_by omega

/-! ### The lifecycle driver's per-state handlers -/

/-- Oracle bundle for one activation of the lifecycle driver
(`Device.cxx`).  `pending` is the `NewStatePending()` oracle indexed by a
per-handler clock; `cfg` the string-property read of the config store at
a given clock; `validateB`/`attachB` and `validateC`/`attachC` drive
`AttachChannels` for the binding pass and the connecting attempts;
`transportNameValid` models whether `TransportTypes.at` accepts the
configured transport name; `ifaceIP` the network-interface detection;
the remaining fields feed the `Running` state: registered data callbacks,
input channel keys, per-channel sub-channel counts, the `Receive` return
values and user-callback results of successive iterations, the
`ConditionalRun` results, and the loop fuel. -/
structure DeviceEnv where
  pending : Nat → Bool
  transportNameValid : Bool
  ifaceIP : Option String
  channels : List Channel
  bindingChans : List Channel
  validateB : Channel → Bool
  attachB : Channel → Bool
  connectingChans : List Channel
  validateC : Nat → Channel → Bool
  attachC : Nat → Channel → Bool
  cfg : Nat → String → String
  initTimeoutInS : Nat
  dataCallbacks : Bool
  inputKeys : List String
  subCount : String → Nat
  msgInputsNonempty : Bool
  multipartInputsNonempty : Bool
  recvRet : Nat → Int
  msgCb : Nat → Bool
  multiRecvRet : Nat → Int
  multiCb : Nat → Bool
  conditionalRun : Nat → Bool
  multiExitClock : Nat
  runFuel : Nat

/-- What one state handler did: whether it threw, which transitions it
issued via `ChangeStateOrThrow`, and the value its final
`NewStatePending()` check read (`false` when the handler threw or
performs no final check). -/
structure WrapperResult where
  raised : Bool
  issued : List Transition
  finalPending : Bool
deriving DecidableEq

/-- `Device::ConnectWrapper`'s loop entry: first `AttachChannels` attempt
at clock 0, then the retry loop with `numAttempts = 1` and
`maxAttempts = fInitializationTimeoutInS * 1000 / 50` (the fixed
`sleepTimeInMS = 50`). -/
def ConnectWrapperOutcome (env : DeviceEnv) : ConnectOutcome :=
  let sleepTimeInMS := 50
  let maxAttempts := env.initTimeoutInS * 1000 / sleepTimeInMS
  connectLoop env.pending env.cfg env.validateC env.attachC maxAttempts
    1 (AttachChannelsM (env.validateC 0) (env.attachC 0) env.connectingChans) 1

/-- `Device::InitWrapper`: waits for the pending `CompleteInit`
transition, reads config values (throwing on an invalid transport name),
builds the channel containers and classifies every sub-channel into the
working lists.  It issues no transition: the trailing
`ChangeStateOrThrow(Transition::Auto)` is commented out in the source. -/
def InitWrapperResult (env : DeviceEnv) : WrapperResult :=
  if env.transportNameValid then
    match initChannelLists env.ifaceIP env.channels with
    | Except.ok _ => ⟨false, [], false⟩
    | Except.error _ => ⟨true, [], false⟩
  else ⟨true, [], false⟩

/-- `Device::BindWrapper`: one `AttachChannels` pass over the binding
list; any remaining channel is fatal; otherwise call the user `Bind()`
hook and issue `Auto` unless a new state is pending. -/
def BindWrapperResult (env : DeviceEnv) : WrapperResult :=
  if (AttachChannelsM env.validateB env.attachB env.bindingChans).isEmpty then
    ⟨false, if env.pending 0 then [] else [Transition.Auto], env.pending 0⟩
  else ⟨true, [], false⟩

/-- `Device::ConnectWrapper`: the retry loop, then the user `Connect()`
hook and `Auto` unless a new state is pending; a loop timeout throws. -/
def ConnectWrapperResult (env : DeviceEnv) : WrapperResult :=
  match ConnectWrapperOutcome env with
  | ConnectOutcome.timeout _ _ _ => ⟨true, [], false⟩
  | ConnectOutcome.done _ t _ =>
    ⟨false, if env.pending (t + 1) then [] else [Transition.Auto], env.pending (t + 1)⟩

/-- `Device::InitTaskWrapper`: user `InitTask()`, then `Auto` unless a
new state is pending. -/
def InitTaskWrapperResult (env : DeviceEnv) : WrapperResult :=
  ⟨false, if env.pending 0 then [] else [Transition.Auto], env.pending 0⟩

/-- Which branch of the data-dispatch protocol `Device::RunWrapper`
takes. -/
inductive RunPath where
  | single | multi | userRun
deriving DecidableEq

/-- The dispatch decision of `Device::RunWrapper`: with data callbacks
registered, the single-channel fast path
(`HandleSingleChannelInput`) is chosen exactly when there is one input
channel key whose channel has one sub-channel, else the polled
multi-channel path (`HandleMultipleChannelInput`); without data
callbacks, the `ConditionalRun`/`Run` path. -/
def runWrapperPath (env : DeviceEnv) : RunPath :=
  if env.dataCallbacks then
    match env.inputKeys with
    | [k] => if env.subCount k = 1 then RunPath.single else RunPath.multi
    | _ => RunPath.multi
  else RunPath.userRun

/-- Iteration `k` of the fast-path message loop:
`HandleMsgInput(fInputChannelKeys.at(0), callback, 0)`. -/
def stepMsg (env : DeviceEnv) (k : Nat) : Bool :=
  (HandleMsgInputM (env.recvRet k) (env.msgCb k)).1

/-- Iteration `k` of the fast-path multipart loop. -/
def stepMultipart (env : DeviceEnv) (k : Nat) : Bool :=
  (HandleMultipartInputM (env.multiRecvRet k) (env.multiCb k)).1

/-- `Device::HandleSingleChannelInput`: loop on the message callback if
any is registered, else on the multipart callback, else return at once.
Yields the number of loop iterations executed. -/
def HandleSingleChannelInputExit (env : DeviceEnv) : Option Nat :=
  if env.msgInputsNonempty then recvLoop env.pending (stepMsg env) env.runFuel 0
  else if env.multipartInputsNonempty then
    recvLoop env.pending (stepMultipart env) env.runFuel 0
  else some 0

/-- `Device::RunWrapper`: dispatch to the single-channel fast path, the
polled multi-channel path (its exit clock abstracted by
`multiExitClock`, as it is driven entirely by external pollers), or the
`ConditionalRun` loop followed by `Run()`; afterwards, if no new state is
pending, issue `Stop` (not `Auto`).  `none` models a dispatch loop that
did not exit within the fuel. -/
def RunWrapperResult (env : DeviceEnv) : Option WrapperResult :=
  match runWrapperPath env with
  | RunPath.single =>
    match HandleSingleChannelInputExit env with
    | none => none
    | some n =>
      some ⟨false, if env.pending (n + 1) then [] else [Transition.Stop], env.pending (n + 1)⟩
  | RunPath.multi =>
    some ⟨false, if env.pending (env.multiExitClock + 1) then [] else [Transition.Stop],
      env.pending (env.multiExitClock + 1)⟩
  | RunPath.userRun =>
    match recvLoop env.pending env.conditionalRun env.runFuel 0 with
    | none => none
    | some n =>
      some ⟨false, if env.pending (n + 1) then [] else [Transition.Stop], env.pending (n + 1)⟩

/-- `Device::ResetTaskWrapper`: user `ResetTask()`, then `Auto` unless a
new state is pending. -/
def ResetTaskWrapperResult (env : DeviceEnv) : WrapperResult :=
  ⟨false, if env.pending 0 then [] else [Transition.Auto], env.pending 0⟩

/-- `Device::ResetWrapper`: reset and clear the transport pool, user
`Reset()`, clear channels, then `Auto` unless a new state is pending. -/
def ResetWrapperResult (env : DeviceEnv) : WrapperResult :=
  ⟨false, if env.pending 0 then [] else [Transition.Auto], env.pending 0⟩

/-- The `Exiting` arm of the main handler: it calls the user `Exit()`
hook directly and issues no transition. -/
def ExitWrapperResult : WrapperResult := ⟨false, [], false⟩

/-- The main state handler installed by the `Device` constructor
(`fStateMachine.HandleStates`): dispatch on the entered state; states
without a matching wrapper only log.  `none` propagates a `Running`
dispatch loop that did not exit within the fuel. -/
def handleState (env : DeviceEnv) : State → Option WrapperResult
  | State.InitializingDevice => some (InitWrapperResult env)
  | State.Binding => some (BindWrapperResult env)
  | State.Connecting => some (ConnectWrapperResult env)
  | State.InitializingTask => some (InitTaskWrapperResult env)
  | State.Running => RunWrapperResult env
  | State.ResettingTask => some (ResetTaskWrapperResult env)
  | State.ResettingDevice => some (ResetWrapperResult env)
  | State.Exiting => some ExitWrapperResult
  | _ => some ⟨false, [], false⟩

/-- Modelled from the spec: the `StateMachine` transition graph is not
part of the provided sources.  Per the spec, the lifecycle is the linear
chain Idle → InitializingDevice → Initialized → Binding → Bound →
Connecting → DeviceReady → InitializingTask → Ready → Running →
ResettingTask → ResettingDevice → Exiting, and `Auto` requests the next
linear state. -/
def nextLinearState : State → Option State
  | State.Idle => some State.InitializingDevice
  | State.InitializingDevice => some State.Initialized
  | State.Initialized => some State.Binding
  | State.Binding => some State.Bound
  | State.Bound => some State.Connecting
  | State.Connecting => some State.DeviceReady
  | State.DeviceReady => some State.InitializingTask
  | State.InitializingTask => some State.Ready
  | State.Ready => some State.Running
  | State.Running => some State.ResettingTask
  | State.ResettingTask => some State.ResettingDevice
  | State.ResettingDevice => some State.Exiting
  | _ => none

/-- Modelled from the spec: the effect of a consumed transition on the
state, for the transitions this development needs.  `Stop` leads from
`Running` to `Ready`; `ErrorFound` leads from every non-terminal state to
`Error`; `Auto` advances along the linear lifecycle. -/
def applyTransition (s : State) (t : Transition) : Option State :=
  match t with
  | Transition.Auto => nextLinearState s
  | Transition.Stop => if s = State.Running then some State.Ready else none
  | Transition.ErrorFound =>
    if s = State.Error ∨ s = State.Exiting then none else some State.Error
  | _ => none

/-! ### Sink example (`src/examples/copypush/sink.cxx`) -/

/-- `Sink::HandleData`: log the message, pre-increment `fNumIterations`
(a `uint64_t`), and return `false` iff `fMaxIterations > 0` and the
incremented counter reached `fMaxIterations`.  Returns the `proceed`
value and the new counter. -/
def sinkHandleData (fMaxIterations fNumIterations : Nat) : Bool × Nat :=
  let n := (fNumIterations + 1) % 2 ^ 64
  if 0 < fMaxIterations ∧ fMaxIterations ≤ n then (false, n) else (true, n)

/-- Spec-side table of the amended claim: the transition each state's
handler issues at its final `NewStatePending()` check when the handler
completed without raising and no transition was pending.  To be compared
with the source-derived `handleState`. -/
def amendedFinalTransition : State → List Transition
  | State.Binding => [Transition.Auto]
  | State.Connecting => [Transition.Auto]
  | State.InitializingTask => [Transition.Auto]
  | State.ResettingTask => [Transition.Auto]
  | State.ResettingDevice => [Transition.Auto]
  | State.Running => [Transition.Stop]
  | _ => []

/-! ### Concrete fixtures used in concrete evaluations -/

/-- A concrete baseline driver activation: no external transition ever
requested, trivial oracles. -/
def baseEnv : DeviceEnv where
  pending := fun _ => false
  transportNameValid := true
  ifaceIP := none
  channels := []
  bindingChans := []
  validateB := fun _ => true
  attachB := fun _ => true
  connectingChans := []
  validateC := fun _ _ => true
  attachC := fun _ _ => true
  cfg := fun _ _ => ""
  initTimeoutInS := 1
  dataCallbacks := false
  inputKeys := []
  subCount := fun _ => 0
  msgInputsNonempty := false
  multipartInputsNonempty := false
  recvRet := fun _ => 0
  msgCb := fun _ => true
  multiRecvRet := fun _ => 0
  multiCb := fun _ => true
  conditionalRun := fun _ => false
  multiExitClock := 0
  runFuel := 4

/-- The Sink scenario activation: `max-iterations = 3`, one `data` input
channel with one sub-channel, the message callback wired to
`Sink::HandleData` (whose `fNumIterations` counter equals the iteration
index, as each call increments it by one), every receive successful, no
external transition requested. -/
def sinkEnv : DeviceEnv :=
  { baseEnv with
    dataCallbacks := true
    inputKeys := ["data"]
    subCount := fun _ => 1
    msgInputsNonempty := true
    recvRet := fun _ => 8
    msgCb := fun k => (sinkHandleData 3 k).1
    runFuel := 8 }

/-- A concrete driver activation whose `Running` handler takes the
`ConditionalRun` path and exits after one iteration. -/
def cexEnvC1 : DeviceEnv := baseEnv

/-- A concrete driver activation for the connecting phase with an
always-pending external transition. -/
def envC2w : DeviceEnv :=
  { baseEnv with pending := fun _ => true }

/-- A concrete connecting channel. -/
def chanC2w : Channel :=
  { fName := "data", pfx := "data", idx := "0", fMethod := "connect",
    fAddress := "tcp://localhost:5555" }

/-- A concrete fast-path activation whose callback stops after the first
message. -/
def envC7w : DeviceEnv :=
  { baseEnv with
    dataCallbacks := true
    inputKeys := ["data"]
    subCount := fun _ => 1
    msgInputsNonempty := true
    recvRet := fun _ => 16
    msgCb := fun _ => false
    runFuel := 4 }

/-- A concrete fast-path activation with only a multipart callback,
stopping after the first delivery. -/
def envC7m : DeviceEnv :=
  { baseEnv with
    dataCallbacks := true
    inputKeys := ["data"]
    subCount := fun _ => 1
    msgInputsNonempty := false
    multipartInputsNonempty := true
    multiRecvRet := fun _ => 16
    multiCb := fun _ => false
    runFuel := 4 }

/-- A concrete attach environment: `host` resolves to `1.2.3.4`, every
other name fails to resolve; binds succeed and assign exactly the
requested address; connects succeed. -/
def envC34 : AttachEnv where
  resolve := fun x => if x = "host" then "1.2.3.4" else ""
  bindResult := fun a => some a
  connectOk := fun _ => true

/-- Concrete sub-channels for the `InitWrapper` classification. -/
def chanBindW : Channel :=
  { fName := "data", pfx := "data", idx := "0", fMethod := "bind",
    fAddress := "tcp://*:5" }

def chanConnW : Channel :=
  { fName := "data", pfx := "data", idx := "1", fMethod := "connect",
    fAddress := "tcp://localhost:5555" }

def chanModW : Channel :=
  { fName := "ctl", pfx := "ctl", idx := "0", fMethod := "",
    fAddress := "@tcp://x:1" }

/-! ## Helper lemmas -/

/-- Unsigned 64-bit subtraction agrees with `Nat` subtraction when the
counters did not wrap. -/
theorem u64diff_eq (newVal oldVal : Nat) (h1 : oldVal ≤ newVal) (h2 : newVal < 2 ^ 64) :
    u64diff newVal oldVal = newVal - oldVal := by
  have hpow : (2 : Nat) ^ 64 = 18446744073709551616 := by norm_num
  unfold u64diff
  rw [hpow] at h2 ⊢
  omega

/-- Exit characterization of the `while (!NewStatePending() && proceed)`
loop: when it exits after `n` iterations, every iteration up to `n` saw
no pending state, every iteration before the last produced
`proceed = true`, and the exit was caused by a pending state or by the
last iteration's `proceed = false`. -/
theorem recvLoop_spec (p s : Nat → Bool) :
    ∀ fuel k n, recvLoop p s fuel k = some n →
      k ≤ n ∧ (∀ j, k ≤ j → j < n → p j = false) ∧
        (∀ j, k ≤ j → j + 1 < n → s j = true) ∧
        (p n = true ∨ (k < n ∧ s (n - 1) = false)) := by
  intro fuel
  induction fuel with
  | zero => intro k n h; simp [recvLoop] at h
  | succ fuel ih =>
    intro k n h
    rw [recvLoop] at h
    cases hp : p k with
    | true =>
      rw [hp] at h
      simp only [if_true] at h
      obtain rfl : k = n := by exact Option.some.inj h
      refine ⟨le_refl _, ?_, ?_, Or.inl hp⟩
      · intro j h1 h2; omega
      · intro j h1 h2; omega
    | false =>
      rw [hp] at h
      simp only [Bool.false_eq_true, if_false] at h
      cases hs : s k with
      | true =>
        rw [hs] at h
        simp only [if_true] at h
        obtain ⟨h1, h2, h3, h4⟩ := ih (k + 1) n h
        refine ⟨by omega, ?_, ?_, ?_⟩
        · intro j hj1 hj2
          rcases Nat.lt_or_ge j (k + 1) with hj | hj
          · have : j = k := by omega
            simpa [this] using hp
          · exact h2 j hj hj2
        · intro j hj1 hj2
          rcases Nat.lt_or_ge j (k + 1) with hj | hj
          · have : j = k := by omega
            simpa [this] using hs
          · exact h3 j hj hj2
        · rcases h4 with h4 | ⟨h4a, h4b⟩
          · exact Or.inl h4
          · exact Or.inr ⟨by omega, h4b⟩
      | false =>
        rw [hs] at h
        simp only [Bool.false_eq_true, if_false] at h
        obtain rfl : k + 1 = n := by exact Option.some.inj h
        refine ⟨by omega, ?_, ?_, Or.inr ⟨by omega, by simpa using hs⟩⟩
        · intro j h1 h2
          have : j = k := by omega
          simpa [this] using hp
        · intro j h1 h2; omega

/-- A second `AddTransport` call with the same kind returns the same
instance and leaves the pool unchanged. -/
theorem addTransport_stable (p : TransportPool) (k : TKind) :
    AddTransport (AddTransport p k).2 k = AddTransport p k := by
  unfold AddTransport
  cases hl : poolLookup p.transports (if k = TKind.DEFAULT then p.defaultTransportType else k) with
  | some v => simp [hl]
  | none => simp [hl, poolLookup]

/-! ## Claims -/

/-- C5: transport pool deduplication.  For every pool state `p` and
transport kind `k`, the `n + 1`-st successive `AddTransport p k` call
returns the very same instance and pool as the first call (so a new
transport instance is constructed at most on the first call), and
`AddTransport p DEFAULT` coincides with `AddTransport` at the device's
default transport kind. -/
theorem C5_transport_pool_dedup (p : TransportPool) (k : TKind) (n : Nat) :
    addTransportN p k n = AddTransport p k ∧
      AddTransport p TKind.DEFAULT = AddTransport p p.defaultTransportType := by
  constructor
  · induction n with
    | zero => rfl
    | succ n ih =>
      show AddTransport (addTransportN p k n).2 k = AddTransport p k
      rw [ih]
      exact addTransport_stable p k
  · unfold AddTransport
    by_cases h : p.defaultTransportType = TKind.DEFAULT
    · simp [h]
    · simp [h]

/-- C9: for the Sink device with `max-iterations = 3`, `HandleData`
returns `true` on its first and second invocation (the counter is
pre-incremented from 0 to 1 and from 1 to 2) and `false` on its third
(counter reaches 3); the fast-path loop therefore exits after exactly
three iterations, the `RunWrapper` issues `Stop` as no other state is
pending, and the `Stop` transition takes the device from `Running` to
`Ready`. -/
theorem C9_sink_three_iterations :
    (sinkHandleData 3 0).1 = true ∧ (sinkHandleData 3 0).2 = 1 ∧
      (sinkHandleData 3 1).1 = true ∧ (sinkHandleData 3 1).2 = 2 ∧
      (sinkHandleData 3 2).1 = false ∧ (sinkHandleData 3 2).2 = 3 ∧
      HandleSingleChannelInputExit sinkEnv = some 3 ∧
      RunWrapperResult sinkEnv =
        some { raised := false, issued := [Transition.Stop], finalPending := false } ∧
      applyTransition State.Running Transition.Stop = some State.Ready := by
  decide

/-- C10: an interrupted receive (negative `Receive` return) makes
`HandleMsgInput` and `HandleMultipartInput` return `false` without
invoking the user callback (the invocation flag stays `false`), and the
data-dispatch loop consequently exits right after such an iteration,
exactly as it does for a callback that returned `false`. -/
theorem C10_interrupted_receive (r : Int) (cbM cbP : Bool)
    (pending : Nat → Bool) (recv : Nat → Int) (cb : Nat → Bool) (fuel k : Nat)
    (hr : r < 0) (hk : pending k = false) (hrecv : recv k < 0) :
    HandleMsgInputM r cbM = (false, false) ∧
      HandleMultipartInputM r cbP = (false, false) ∧
      recvLoop pending (fun j => (HandleMsgInputM (recv j) (cb j)).1) (fuel + 1) k
        = some (k + 1) := by
  refine ⟨?_, ?_, ?_⟩
  · simp [HandleMsgInputM, not_le.mpr hr]
  · simp [HandleMultipartInputM, not_le.mpr hr]
  · rw [recvLoop, hk]
    simp [HandleMsgInputM, not_le.mpr hrecv]

/-- Witness for C10 at `Receive` returning `-1`. -/
theorem C10_interrupted_receive_witness :
    HandleMsgInputM (-1) true = (false, false) ∧
      HandleMultipartInputM (-1) true = (false, false) ∧
      recvLoop (fun _ => false) (fun j => (HandleMsgInputM ((-1 : Int)) ((fun _ => true) j)).1)
          (0 + 1) 0 = some (0 + 1) :=
  C10_interrupted_receive (-1) true true (fun _ => false) (fun _ => (-1)) (fun _ => true) 0 0
    (by decide) rfl (by decide)

/-- C8: on a wake of the rate-logger loop for a rate-logged channel, the
interval counter is incremented, and it is reset to zero exactly when the
incremented value equals the channel's `fRateLogging` interval; a line is
emitted iff additionally the elapsed `Δt` (ms) is positive, in which case
(absent counter wrap-around) the logged rates are
`(new − old) / Δt × 1000`, with the byte rates additionally scaled by
`1 / 1e6`, and the counter baselines roll to the current values; when the
counter reaches the interval but `Δt = 0`, the counter is still reset but
nothing is logged and the baselines stay. -/
theorem C8_rate_logging (dt cbi cmi cbo cmo : Nat) (st : RateChannelState)
    (h1 : st.bytesIn ≤ cbi) (h2 : cbi < 2 ^ 64) (h3 : st.msgIn ≤ cmi) (h4 : cmi < 2 ^ 64)
    (h5 : st.bytesOut ≤ cbo) (h6 : cbo < 2 ^ 64) (h7 : st.msgOut ≤ cmo) (h8 : cmo < 2 ^ 64) :
    ((logSocketRatesWake dt cbi cmi cbo cmo st).1.counter
        = if st.counter + 1 = st.interval then 0 else st.counter + 1) ∧
      ((logSocketRatesWake dt cbi cmi cbo cmo st).2.isSome
        ↔ (st.counter + 1 = st.interval ∧ 0 < dt)) ∧
      (st.counter + 1 = st.interval → 0 < dt →
        logSocketRatesWake dt cbi cmi cbo cmo st =
          ({ st with counter := 0, bytesIn := cbi, msgIn := cmi,
                     bytesOut := cbo, msgOut := cmo },
            some { mbPerSecIn := ((cbi - st.bytesIn : ℕ) : ℚ) / (1000 * 1000) / (dt : ℚ) * 1000
                   msgPerSecIn := ((cmi - st.msgIn : ℕ) : ℚ) / (dt : ℚ) * 1000
                   mbPerSecOut := ((cbo - st.bytesOut : ℕ) : ℚ) / (1000 * 1000) / (dt : ℚ) * 1000
                   msgPerSecOut := ((cmo - st.msgOut : ℕ) : ℚ) / (dt : ℚ) * 1000 })) ∧
      (st.counter + 1 = st.interval → dt = 0 →
        logSocketRatesWake dt cbi cmi cbo cmo st = ({ st with counter := 0 }, none)) := by
  refine ⟨?_, ?_, ?_, ?_⟩
  · unfold logSocketRatesWake
    by_cases hc : st.counter + 1 = st.interval
    · by_cases hdt : 0 < dt <;> simp [hc, hdt]
    · simp [hc]
  · unfold logSocketRatesWake
    by_cases hc : st.counter + 1 = st.interval
    · by_cases hdt : 0 < dt <;> simp [hc, hdt]
    · simp [hc]
  · intro hc hdt
    unfold logSocketRatesWake
    rw [u64diff_eq cbi st.bytesIn h1 h2, u64diff_eq cmi st.msgIn h3 h4,
      u64diff_eq cbo st.bytesOut h5 h6, u64diff_eq cmo st.msgOut h7 h8]
    simp [hc, hdt]
  · intro hc hdt
    unfold logSocketRatesWake
    simp [hc, hdt]

/-- Witness for C8: a channel with interval 2 and counter 1 wakes with
`Δt = 500 ms` after receiving 1000 more bytes in 2 more messages; a line
is logged and the baselines roll. -/
theorem C8_rate_logging_witness :
    logSocketRatesWake 500 2000 3 0 0
        { interval := 2, counter := 1, bytesIn := 1000, msgIn := 1, bytesOut := 0, msgOut := 0 } =
      ({ interval := 2, counter := 0, bytesIn := 2000, msgIn := 3, bytesOut := 0, msgOut := 0 },
        some { mbPerSecIn := ((2000 - 1000 : ℕ) : ℚ) / (1000 * 1000) / (500 : ℚ) * 1000
               msgPerSecIn := ((3 - 1 : ℕ) : ℚ) / (500 : ℚ) * 1000
               mbPerSecOut := ((0 - 0 : ℕ) : ℚ) / (1000 * 1000) / (500 : ℚ) * 1000
               msgPerSecOut := ((0 - 0 : ℕ) : ℚ) / (500 : ℚ) * 1000 }) :=
  (C8_rate_logging 500 2000 3 0 0
      { interval := 2, counter := 1, bytesIn := 1000, msgIn := 1, bytesOut := 0, msgOut := 0 }
      (by decide) (by decide) (by decide) (by decide) (by decide) (by decide) (by decide)
      (by decide)).2.2.1 rfl (by decide)

/-- A sub-channel sequence in which every sub-channel carries a socket
method or a modifier initializes successfully. -/
theorem initChannelLists_ok_of_forall (ip : Option String) :
    ∀ cs : List Channel,
      (∀ c ∈ cs, c.fMethod = "bind" ∨ c.fMethod = "connect" ∨
        hasSocketModifier c.fAddress = true) →
      ∃ bc, initChannelLists ip cs = Except.ok bc := by
  intro cs
  induction cs with
  | nil => exact fun _ => ⟨([], []), rfl⟩
  | cons c rest ih =>
    intro hall
    obtain ⟨bc, hbc⟩ := ih (fun c2 h2 => hall c2 (List.mem_cons_of_mem _ h2))
    by_cases hb : c.fMethod = "bind"
    · refine ⟨({ c with fAddress := defaultBindAddress ip c.fAddress } :: bc.1, bc.2), ?_⟩
      simp [initChannelLists, classifySubChannel, hb, hbc, Except.map]
    · by_cases hc : c.fMethod = "connect"
      · refine ⟨(bc.1, c :: bc.2), ?_⟩
        simp [initChannelLists, classifySubChannel, hb, hc, hbc, Except.map]
      · have hm : hasSocketModifier c.fAddress = true := by
          rcases hall c (List.mem_cons_self _ _) with h | h | h
          · exact absurd h hb
          · exact absurd h hc
          · exact h
        refine ⟨(bc.1, c :: bc.2), ?_⟩
        simp [initChannelLists, classifySubChannel, hb, hc, hm, hbc, Except.map]

/-- When `InitWrapper`'s classification succeeds, every `bind`
sub-channel (with its defaulted address) is in the binding working list,
every `connect` sub-channel is in the connecting working list, every
modifier-carrying method-less sub-channel is in the connecting working
list, and every sub-channel carried a method or a modifier. -/
theorem initChannelLists_ok_mem (ip : Option String) :
    ∀ (cs : List Channel) (b co : List Channel),
      initChannelLists ip cs = Except.ok (b, co) →
      (∀ c ∈ cs, c.fMethod = "bind" →
          { c with fAddress := defaultBindAddress ip c.fAddress } ∈ b) ∧
        (∀ c ∈ cs, c.fMethod = "connect" → c ∈ co) ∧
        (∀ c ∈ cs, c.fMethod ≠ "bind" → c.fMethod ≠ "connect" →
          hasSocketModifier c.fAddress = true → c ∈ co) ∧
        (∀ c ∈ cs, c.fMethod = "bind" ∨ c.fMethod = "connect" ∨
          hasSocketModifier c.fAddress = true) := by
  intro cs
  induction cs with
  | nil =>
    intro b co h
    refine ⟨?_, ?_, ?_, ?_⟩ <;> intro c hc <;> cases hc
  | cons c rest ih =>
    intro b co h
    by_cases hb : c.fMethod = "bind"
    · have hcl : classifySubChannel ip c
          = InitDisposition.binding (defaultBindAddress ip c.fAddress) := by
        simp [classifySubChannel, hb]
      simp only [initChannelLists, hcl] at h
      cases hr : initChannelLists ip rest with
      | error e => rw [hr] at h; cases h
      | ok bc =>
        rw [hr] at h
        simp only [Except.map] at h
        injection h with hpair
        injection hpair with hb2 hco
        obtain ⟨m1, m2, m3, m4⟩ := ih bc.1 bc.2 hr
        refine ⟨?_, ?_, ?_, ?_⟩
        · intro c2 hc2 hm2
          rcases List.mem_cons.mp hc2 with rfl | hc2
          · rw [← hb2]; exact List.mem_cons_self _ _
          · rw [← hb2]; exact List.mem_cons_of_mem _ (m1 c2 hc2 hm2)
        · intro c2 hc2 hm2
          rcases List.mem_cons.mp hc2 with rfl | hc2
          · exact absurd (hb.symm.trans hm2) (by decide)
          · rw [← hco]; exact m2 c2 hc2 hm2
        · intro c2 hc2 hm2 hm3 hm4
          rcases List.mem_cons.mp hc2 with rfl | hc2
          · exact absurd hb hm2
          · rw [← hco]; exact m3 c2 hc2 hm2 hm3 hm4
        · intro c2 hc2
          rcases List.mem_cons.mp hc2 with rfl | hc2
          · exact Or.inl hb
          · exact m4 c2 hc2
    · by_cases hc : c.fMethod = "connect"
      · simp only [initChannelLists, classifySubChannel, hb, hc, if_true, if_false] at h
        cases hr : initChannelLists ip rest with
        | error e => rw [hr] at h; cases h
        | ok bc =>
          rw [hr] at h
          simp only [Except.map] at h
          obtain ⟨hb2, hco⟩ : (bc.1 = b ∧ c :: bc.2 = co) := by
            cases h; exact ⟨rfl, rfl⟩
          obtain ⟨m1, m2, m3, m4⟩ := ih bc.1 bc.2 hr
          refine ⟨?_, ?_, ?_, ?_⟩
          · intro c2 hc2 hm2
            rcases List.mem_cons.mp hc2 with rfl | hc2
            · exact absurd hm2 hb
            · rw [← hb2]; exact m1 c2 hc2 hm2
          · intro c2 hc2 hm2
            rcases List.mem_cons.mp hc2 with rfl | hc2
            · rw [← hco]; exact List.mem_cons_self _ _
            · rw [← hco]; exact List.mem_cons_of_mem _ (m2 c2 hc2 hm2)
          · intro c2 hc2 hm2 hm3 hm4
            rcases List.mem_cons.mp hc2 with rfl | hc2
            · exact absurd hc hm3
            · rw [← hco]; exact List.mem_cons_of_mem _ (m3 c2 hc2 hm2 hm3 hm4)
          · intro c2 hc2
            rcases List.mem_cons.mp hc2 with rfl | hc2
            · exact Or.inr (Or.inl hc)
            · exact m4 c2 hc2
      · by_cases hm : hasSocketModifier c.fAddress = true
        · simp only [initChannelLists, classifySubChannel, hb, hc, hm, if_true, if_false] at h
          cases hr : initChannelLists ip rest with
          | error e => rw [hr] at h; cases h
          | ok bc =>
            rw [hr] at h
            simp only [Except.map] at h
            obtain ⟨hb2, hco⟩ : (bc.1 = b ∧ c :: bc.2 = co) := by
              cases h; exact ⟨rfl, rfl⟩
            obtain ⟨m1, m2, m3, m4⟩ := ih bc.1 bc.2 hr
            refine ⟨?_, ?_, ?_, ?_⟩
            · intro c2 hc2 hm2
              rcases List.mem_cons.mp hc2 with rfl | hc2
              · exact absurd hm2 hb
              · rw [← hb2]; exact m1 c2 hc2 hm2
            · intro c2 hc2 hm2
              rcases List.mem_cons.mp hc2 with rfl | hc2
              · exact absurd hm2 hc
              · rw [← hco]; exact List.mem_cons_of_mem _ (m2 c2 hc2 hm2)
            · intro c2 hc2 hm2 hm3 hm4
              rcases List.mem_cons.mp hc2 with rfl | hc2
              · rw [← hco]; exact List.mem_cons_self _ _
              · rw [← hco]; exact List.mem_cons_of_mem _ (m3 c2 hc2 hm2 hm3 hm4)
            · intro c2 hc2
              rcases List.mem_cons.mp hc2 with rfl | hc2
              · exact Or.inr (Or.inr hm)
              · exact m4 c2 hc2
        · simp only [initChannelLists, classifySubChannel, hb, hc, hm, if_true, if_false] at h
          cases h

/-- C6: during `InitializingDevice`, every sub-channel with method
`bind` is enqueued into the binding working list (with its possibly
defaulted address), every sub-channel with method `connect` into the
connecting working list, every other-method sub-channel whose address
contains one of `@`, `+`, `>` is enqueued (into the connecting working
list) on account of that modifier, and the handler throws the
"Socket method ... not specified" configuration error exactly when some
sub-channel has neither a `bind`/`connect` method nor a modifier. -/
theorem C6_subchannel_classification (ip : Option String) (cs : List Channel) :
    ((∃ e, initChannelLists ip cs = Except.error e) ↔
        ∃ c ∈ cs, c.fMethod ≠ "bind" ∧ c.fMethod ≠ "connect" ∧
          hasSocketModifier c.fAddress = false) ∧
      ∀ b co, initChannelLists ip cs = Except.ok (b, co) →
        (∀ c ∈ cs, c.fMethod = "bind" →
            { c with fAddress := defaultBindAddress ip c.fAddress } ∈ b) ∧
          (∀ c ∈ cs, c.fMethod = "connect" → c ∈ co) ∧
          (∀ c ∈ cs, c.fMethod ≠ "bind" → c.fMethod ≠ "connect" →
            hasSocketModifier c.fAddress = true → c ∈ co) := by
  constructor
  · constructor
    · intro ⟨e, he⟩
      by_contra hno
      push_neg at hno
      have hgood : ∀ c ∈ cs, c.fMethod = "bind" ∨ c.fMethod = "connect" ∨
          hasSocketModifier c.fAddress = true := by
        intro c hc
        by_cases h1 : c.fMethod = "bind"
        · exact Or.inl h1
        · by_cases h2 : c.fMethod = "connect"
          · exact Or.inr (Or.inl h2)
          · exact Or.inr (Or.inr (by simpa using hno c hc h1 h2))
      obtain ⟨bc, hbc⟩ := initChannelLists_ok_of_forall ip cs hgood
      rw [hbc] at he; cases he
    · intro ⟨c, hc, hbad⟩
      cases hres : initChannelLists ip cs with
      | error e => exact ⟨e, rfl⟩
      | ok bc =>
        exfalso
        obtain ⟨_, _, _, hall⟩ := initChannelLists_ok_mem ip cs bc.1 bc.2 hres
        rcases hall c hc with h | h | h
        · exact hbad.1 h
        · exact hbad.2.1 h
        · rw [hbad.2.2] at h; cases h
  · intro b co h
    obtain ⟨m1, m2, m3, _⟩ := initChannelLists_ok_mem ip cs b co h
    exact ⟨m1, m2, m3⟩

/-- Witness for C6 at a three-sub-channel configuration (`bind`,
`connect`, and a method-less channel with a `@` modifier). -/
theorem C6_subchannel_classification_witness :
    chanConnW ∈ [chanConnW, chanModW] ∧ chanModW ∈ [chanConnW, chanModW] :=
  ⟨((C6_subchannel_classification none [chanBindW, chanConnW, chanModW]).2
      [chanBindW] [chanConnW, chanModW] rfl).2.1 chanConnW (by decide) rfl,
   ((C6_subchannel_classification none [chanBindW, chanConnW, chanModW]).2
      [chanBindW] [chanConnW, chanModW] rfl).2.2 chanModW (by decide) (by decide)
      (by decide) (by decide)⟩

/-- Attempt accounting for the connect retry loop: starting from attempt
counter `n ≤ maxAttempts + 1`, the loop exits with a final counter of at
most `maxAttempts + 1`, and a timeout exits exactly at counter
`maxAttempts + 1` with a nonempty unresolved list. -/
theorem connectLoop_bound (pending : Nat → Bool) (cfg : Nat → String → String)
    (validate attachOk : Nat → Channel → Bool) (maxAttempts : Nat) :
    ∀ fuel n chans t, maxAttempts + 1 - n ≤ fuel → n ≤ maxAttempts + 1 →
      (match connectLoop pending cfg validate attachOk maxAttempts n chans t with
       | ConnectOutcome.done _ _ n2 => n ≤ n2 ∧ n2 ≤ maxAttempts + 1
       | ConnectOutcome.timeout u _ n2 => n2 = maxAttempts + 1 ∧ u ≠ []) := by
  intro fuel
  induction fuel with
  | zero =>
    intro n chans t hf hn
    rcases chans with _ | ⟨c0, crest⟩
    · rw [connectLoop]
      simp only [List.isEmpty_nil, if_true]
      exact ⟨le_refl n, hn⟩
    · rw [connectLoop]
      by_cases hp : pending t
      · simp only [List.isEmpty_cons, Bool.false_eq_true, if_false, hp, if_true]
        exact ⟨le_refl n, hn⟩
      · have hlt : maxAttempts < n := by omega
        simp only [List.isEmpty_cons, Bool.false_eq_true, if_false, hp, dif_pos hlt]
        refine ⟨by omega, by simp⟩
  | succ fuel ih =>
    intro n chans t hf hn
    rcases chans with _ | ⟨c0, crest⟩
    · rw [connectLoop]
      simp only [List.isEmpty_nil, if_true]
      exact ⟨le_refl n, hn⟩
    · rw [connectLoop]
      by_cases hp : pending t
      · simp only [List.isEmpty_cons, Bool.false_eq_true, if_false, hp, if_true]
        exact ⟨le_refl n, hn⟩
      · by_cases hlt : maxAttempts < n
        · simp only [List.isEmpty_cons, Bool.false_eq_true, if_false, hp, dif_pos hlt]
          refine ⟨by omega, by simp⟩
        · simp only [List.isEmpty_cons, Bool.false_eq_true, if_false, hp, dif_neg hlt]
          have := ih (n + 1)
            (AttachChannelsM (validate t) (attachOk t)
              ((c0 :: crest).map (fun c => (updateFromConfig (cfg t) c).1))) (t + 1)
            (by omega) (by omega)
          rcases hres : connectLoop pending cfg validate attachOk maxAttempts (n + 1)
              (AttachChannelsM (validate t) (attachOk t)
                ((c0 :: crest).map (fun c => (updateFromConfig (cfg t) c).1))) (t + 1) with
            ⟨rem, t2, n2⟩ | ⟨u, t2, n2⟩
          · rw [hres] at this
            exact ⟨by omega, this.2⟩
          · rw [hres] at this
            exact this

/-- C2: the `Connecting` state's retry loop.  With
`maxAttempts = init-timeout × 1000 / 50` (the fixed 50 ms sleep per
retry): (1) the loop exits immediately when a new state is pending;
(2) a retry iteration refreshes every remaining channel from the config
and re-runs `AttachChannels`; (3) the refresh re-reads
`chans.<prefix>.<index>.address` and calls `UpdateAddress` exactly when
the value changed; (4) starting from the first attempt, the loop's final
attempt counter stays within `maxAttempts` retries, and on a timeout
exactly `maxAttempts` retries were made and the handler throws with a
nonempty list of still-unresolved channels. -/
theorem C2_connect_retry (env : DeviceEnv) :
    (∀ n chans t, chans ≠ [] → env.pending t = true →
        connectLoop env.pending env.cfg env.validateC env.attachC
            (env.initTimeoutInS * 1000 / 50) n chans t = ConnectOutcome.done chans t n) ∧
      (∀ n chans t, chans ≠ [] → env.pending t = false →
        ¬ env.initTimeoutInS * 1000 / 50 < n →
        connectLoop env.pending env.cfg env.validateC env.attachC
            (env.initTimeoutInS * 1000 / 50) n chans t =
          connectLoop env.pending env.cfg env.validateC env.attachC
            (env.initTimeoutInS * 1000 / 50) (n + 1)
            (AttachChannelsM (env.validateC t) (env.attachC t)
              (chans.map (fun c => (updateFromConfig (env.cfg t) c).1))) (t + 1)) ∧
      (∀ cfgF c,
        ((updateFromConfig cfgF c).2 = true ↔ cfgF (addressKey c) ≠ c.fAddress) ∧
          (updateFromConfig cfgF c).1.fAddress =
            (if cfgF (addressKey c) ≠ c.fAddress then cfgF (addressKey c) else c.fAddress)) ∧
      (match ConnectWrapperOutcome env with
       | ConnectOutcome.done _ _ n2 => n2 - 1 ≤ env.initTimeoutInS * 1000 / 50
       | ConnectOutcome.timeout u _ n2 =>
         n2 - 1 = env.initTimeoutInS * 1000 / 50 ∧ u ≠ []) := by
  refine ⟨?_, ?_, ?_, ?_⟩
  · intro n chans t hne hp
    rcases chans with _ | ⟨c0, crest⟩
    · exact absurd rfl hne
    · rw [connectLoop]
      simp [hp]
  · intro n chans t hne hp hlt
    rcases chans with _ | ⟨c0, crest⟩
    · exact absurd rfl hne
    · rw [connectLoop]
      simp [hp, hlt]
  · intro cfgF c
    unfold updateFromConfig
    by_cases hch : cfgF (addressKey c) ≠ c.fAddress
    · simp [hch]
    · simp [hch]
  · have hb := connectLoop_bound env.pending env.cfg env.validateC env.attachC
      (env.initTimeoutInS * 1000 / 50) (env.initTimeoutInS * 1000 / 50) 1
      (AttachChannelsM (env.validateC 0) (env.attachC 0) env.connectingChans) 1
      (by omega) (by omega)
    unfold ConnectWrapperOutcome
    rcases hres : connectLoop env.pending env.cfg env.validateC env.attachC
        (env.initTimeoutInS * 1000 / 50) 1
        (AttachChannelsM (env.validateC 0) (env.attachC 0) env.connectingChans) 1 with
      ⟨rem, t2, n2⟩ | ⟨u, t2, n2⟩
    · rw [hres] at hb
      simp only
      omega
    · rw [hres] at hb
      simp only
      exact ⟨by omega, hb.2⟩

/-- Witness for C2: with an always-pending transition the loop exits at
once keeping its channel, and with the trivial activation (no connecting
channels) the attempt bound holds. -/
theorem C2_connect_retry_witness :
    connectLoop envC2w.pending envC2w.cfg envC2w.validateC envC2w.attachC
        (envC2w.initTimeoutInS * 1000 / 50) 1 [chanC2w] 0
      = ConnectOutcome.done [chanC2w] 0 1 ∧
      (updateFromConfig (envC2w.cfg 0) chanC2w).2 = true :=
  ⟨(C2_connect_retry envC2w).1 1 [chanC2w] 0 (by decide) rfl,
   ((C2_connect_retry envC2w).2.2.1 (envC2w.cfg 0) chanC2w).1.mpr (by decide)⟩

/-- C7: with data callbacks registered, `RunWrapper` takes the
single-channel fast path exactly when there is one input channel key with
one sub-channel (otherwise the polled multi-channel path); the fast-path
loop — the message variant when a per-message callback is registered,
else the multipart variant — executes while no new state is pending and
the previous callback returned `true`, and each iteration with a
successful receive passes the received message (resp. multipart) to the
registered callback, whose return value becomes the loop's `proceed`. -/
theorem C7_single_channel_fastpath (env : DeviceEnv) (n : Nat)
    (hdc : env.dataCallbacks = true)
    (hexit : HandleSingleChannelInputExit env = some n) :
    (runWrapperPath env = RunPath.single ↔
        ∃ ch, env.inputKeys = [ch] ∧ env.subCount ch = 1) ∧
      (runWrapperPath env = RunPath.single ∨ runWrapperPath env = RunPath.multi) ∧
      (env.msgInputsNonempty = true →
        (∀ k, k < n → env.pending k = false) ∧
          (∀ k, k + 1 < n → stepMsg env k = true) ∧
          (env.pending n = true ∨ (0 < n ∧ stepMsg env (n - 1) = false)) ∧
          (∀ k, 0 ≤ env.recvRet k →
            stepMsg env k = env.msgCb k ∧
              (HandleMsgInputM (env.recvRet k) (env.msgCb k)).2 = true)) ∧
      (env.msgInputsNonempty = false → env.multipartInputsNonempty = true →
        (∀ k, k < n → env.pending k = false) ∧
          (∀ k, k + 1 < n → stepMultipart env k = true) ∧
          (env.pending n = true ∨ (0 < n ∧ stepMultipart env (n - 1) = false)) ∧
          (∀ k, 0 ≤ env.multiRecvRet k →
            stepMultipart env k = env.multiCb k ∧
              (HandleMultipartInputM (env.multiRecvRet k) (env.multiCb k)).2 = true)) := by
  refine ⟨?_, ?_, ?_, ?_⟩
  · unfold runWrapperPath
    rw [hdc]
    simp only [if_true]
    rcases hkeys : env.inputKeys with _ | ⟨k, _ | ⟨k2, rest⟩⟩
    · simp
    · by_cases hs : env.subCount k = 1
      · simp [hs]
      · simp [hs]
    · simp
  · unfold runWrapperPath
    rw [hdc]
    simp only [if_true]
    rcases env.inputKeys with _ | ⟨k, _ | ⟨k2, rest⟩⟩
    · exact Or.inr rfl
    · by_cases hs : env.subCount k = 1
      · exact Or.inl (by simp [hs])
      · exact Or.inr (by simp [hs])
    · exact Or.inr rfl
  · intro hmsg
    have hloop : recvLoop env.pending (stepMsg env) env.runFuel 0 = some n := by
      simpa [HandleSingleChannelInputExit, hmsg] using hexit
    obtain ⟨h1, h2, h3, h4⟩ := recvLoop_spec env.pending (stepMsg env) env.runFuel 0 n hloop
    refine ⟨fun k hk => h2 k (Nat.zero_le _) hk, fun k hk => h3 k (Nat.zero_le _) hk, h4, ?_⟩
    intro k hk
    refine ⟨?_, ?_⟩
    · unfold stepMsg HandleMsgInputM
      simp [hk]
    · unfold HandleMsgInputM
      simp [hk]
  · intro hmsg hmulti
    have hloop : recvLoop env.pending (stepMultipart env) env.runFuel 0 = some n := by
      simpa [HandleSingleChannelInputExit, hmsg, hmulti] using hexit
    obtain ⟨h1, h2, h3, h4⟩ :=
      recvLoop_spec env.pending (stepMultipart env) env.runFuel 0 n hloop
    refine ⟨fun k hk => h2 k (Nat.zero_le _) hk, fun k hk => h3 k (Nat.zero_le _) hk, h4, ?_⟩
    intro k hk
    refine ⟨?_, ?_⟩
    · unfold stepMultipart HandleMultipartInputM
      simp [hk]
    · unfold HandleMultipartInputM
      simp [hk]

/-- Witness for C7 at two concrete activations stopping after their
first delivery: one with a per-message callback, one with only a
multipart callback. -/
theorem C7_single_channel_fastpath_witness :
    envC7w.pending 0 = false ∧ stepMsg envC7w 0 = envC7w.msgCb 0 ∧
      stepMultipart envC7m 0 = envC7m.multiCb 0 ∧
      (runWrapperPath envC7m = RunPath.single ∨ runWrapperPath envC7m = RunPath.multi) :=
  ⟨((C7_single_channel_fastpath envC7w 1 rfl rfl).2.2.1 rfl).1 0 (by decide),
   (((C7_single_channel_fastpath envC7w 1 rfl rfl).2.2.1 rfl).2.2.2 0 (by decide)).1,
   (((C7_single_channel_fastpath envC7m 1 rfl rfl).2.2.2 rfl rfl).2.2.2 0 (by decide)).1,
   (C7_single_channel_fastpath envC7m 1 rfl rfl).2.1⟩

/-- The colon scan finds the first `:` after a colon-free head. -/
theorem splitAtColonAux_append (hd pd : List Char) (h : ':' ∉ hd) :
    splitAtColonAux (hd ++ ':' :: pd) = some (hd, pd) := by
  induction hd with
  | nil => simp [splitAtColonAux]
  | cons c rest ih =>
    have hc : ¬ (c = ':') := by
      intro hc2; subst hc2; exact h (List.mem_cons_self _ _)
    have hrest : ':' ∉ rest := fun hm => h (List.mem_cons_of_mem _ hm)
    simp [splitAtColonAux, hc, ih hrest]

/-- `hostPart`/`portPart` of `host:port` with a colon-free host. -/
theorem hostPortOf_append (hd pd : List Char) (h : ':' ∉ hd) :
    hostPortOf (hd ++ ':' :: pd) = (hd, pd) := by
  unfold hostPortOf
  rw [splitAtColonAux_append hd pd h]

/-- Characterization of the tcp resolution step on a `tcp://host:port`
address with a colon-free host: binding to the wildcard host leaves the
address untouched, otherwise the host is replaced by its resolution,
failing on an empty resolution. -/
theorem resolveTcp_tcp (resolve : String → String) (bind : Bool) (h p : String)
    (hcolon : ':' ∉ h.data) :
    resolveTcp resolve bind ("tcp://" ++ h ++ ":" ++ p) =
      (if bind ∧ h = "*" then some ("tcp://" ++ h ++ ":" ++ p)
       else if resolve h = "" then none
       else some ("tcp://" ++ resolve h ++ ":" ++ p)) := by
  have hdata : ("tcp://" ++ h ++ ":" ++ p).data
      = 't' :: 'c' :: 'p' :: ':' :: '/' :: '/' :: (h.data ++ ':' :: p.data) := by
    simp [String.data_append]
  have htake : (('t' :: 'c' :: 'p' :: ':' :: '/' :: '/' :: (h.data ++ ':' :: p.data)).take 6)
      = ['t', 'c', 'p', ':', '/', '/'] := rfl
  have hdrop : (('t' :: 'c' :: 'p' :: ':' :: '/' :: '/' :: (h.data ++ ':' :: p.data)).drop 6)
      = h.data ++ ':' :: p.data := rfl
  have hmkh : String.mk h.data = h := rfl
  have hmkp : String.mk p.data = p := rfl
  simp only [resolveTcp, hdata, htake, hdrop, hostPortOf_append h.data p.data hcolon,
    hmkh, hmkp, eq_self_iff_true, if_true]

/-- The modifier scan as a function of the endpoint's first character. -/
theorem parseModifier_head (d : Bool) (e : String) (c : Char) (rest : List Char)
    (hda : e.data = c :: rest) :
    parseModifier d e =
      (if c = '+' ∨ c = '>' then (false, true, String.mk rest)
       else if c = '@' then (true, true, String.mk rest)
       else (d, false, e)) := by
  simp only [parseModifier, hda]

/-- The endpoint loop fails as soon as any of its endpoints fails. -/
theorem attachEndpoints_none_of_mem (env : AttachEnv) (d : Bool) :
    ∀ eps e, e ∈ eps → processEndpoint env d e = none →
      attachEndpoints env d eps = none := by
  intro eps
  induction eps with
  | nil => intro e he; cases he
  | cons e0 rest ih =>
    intro e he hp
    rcases List.mem_cons.mp he with rfl | he
    · simp [attachEndpoints, hp]
    · unfold attachEndpoints
      cases hp0 : processEndpoint env d e0 with
      | none => rfl
      | some v => simp [ih e he hp]

/-- C3: address round-trip on attach.  After a successful attach of an
endpoint carrying a `@` (resp. `+`) modifier, the book-kept endpoint
again starts with `@` (resp. `+`); for an endpoint `@tcp://host:port`
with a resolvable non-wildcard host, the stored value is
`@tcp://IP:port'` where `IP` is the resolver's output (given the
transport contract that a bind's actual address differs at most in the
port); and after all endpoints of a channel attach, the rejoined
composite is written back via `UpdateAddress` and persisted via
`Config.Set` exactly when it differs from the original address. -/
theorem C3_address_roundtrip (env : AttachEnv) (defaultBind : Bool)
    (h p r : String) (chan : Channel)
    (hcolon : ':' ∉ h.data) (hstar : h ≠ "*") (hres : env.resolve h ≠ "")
    (hbind : ∀ actual, env.bindResult ("tcp://" ++ env.resolve h ++ ":" ++ p) = some actual →
      ∃ p2, actual = "tcp://" ++ env.resolve h ++ ":" ++ p2)
    (hproc : processEndpoint env defaultBind ("@tcp://" ++ h ++ ":" ++ p) = some r) :
    (∃ p2, r = "@tcp://" ++ env.resolve h ++ ":" ++ p2) ∧
      (∀ e2 r2, e2.data.headD ' ' = '@' → processEndpoint env defaultBind e2 = some r2 →
        r2.data.headD ' ' = '@') ∧
      (∀ e2 r2, e2.data.headD ' ' = '+' → processEndpoint env defaultBind e2 = some r2 →
        r2.data.headD ' ' = '+') ∧
      ((AttachChannel env chan).success = true →
        ((AttachChannel env chan).updatedAddress =
            (if joinComma (AttachChannel env chan).endpoints ≠ chan.fAddress
             then some (joinComma (AttachChannel env chan).endpoints) else none)) ∧
          ((AttachChannel env chan).configSet =
            (if joinComma (AttachChannel env chan).endpoints ≠ chan.fAddress
             then some (addressKey chan, joinComma (AttachChannel env chan).endpoints)
             else none))) := by
  refine ⟨?_, ?_, ?_, ?_⟩
  · -- the main @tcp round trip
    have hdataAt : ("@tcp://" ++ h ++ ":" ++ p).data
        = '@' :: ("tcp://" ++ h ++ ":" ++ p).data := by
      simp [String.data_append]
    have hpm := parseModifier_head defaultBind _ '@' _ hdataAt
    rw [if_neg (by decide : ¬('@' = '+' ∨ '@' = '>')), if_pos rfl] at hpm
    rw [show String.mk ("tcp://" ++ h ++ ":" ++ p).data = "tcp://" ++ h ++ ":" ++ p from rfl]
      at hpm
    unfold processEndpoint at hproc
    rw [hpm] at hproc
    simp only at hproc
    rw [resolveTcp_tcp env.resolve true h p hcolon] at hproc
    simp only [hstar, and_false, if_false, if_neg hres] at hproc
    unfold attachEndpointStage at hproc
    simp only [if_pos rfl, if_true] at hproc
    cases hbr : env.bindResult ("tcp://" ++ env.resolve h ++ ":" ++ p) with
    | none => rw [hbr] at hproc; cases hproc
    | some actual =>
      rw [hbr] at hproc
      simp only [if_true] at hproc
      obtain ⟨p2, hact⟩ := hbind actual hbr
      refine ⟨p2, ?_⟩
      have hr2 : ("@" : String) ++ actual = r := by
        simpa using hproc
      rw [← hr2, hact]
      apply String.ext
      simp [String.data_append]
  · intro e2 r2 hhead hp2
    cases he2 : e2.data with
    | nil => rw [he2] at hhead; cases hhead
    | cons c rest =>
      rw [he2] at hhead
      simp only [List.headD_cons] at hhead
      subst hhead
      have hpm := parseModifier_head defaultBind e2 '@' rest he2
      simp at hpm
      unfold processEndpoint at hp2
      rw [hpm] at hp2
      simp only at hp2
      cases hrt : resolveTcp env.resolve true (String.mk rest) with
      | none => rw [hrt] at hp2; cases hp2
      | some a =>
        rw [hrt] at hp2
        unfold attachEndpointStage at hp2
        simp only [if_pos rfl, if_true] at hp2
        cases hbr : env.bindResult a with
        | none => rw [hbr] at hp2; cases hp2
        | some actual =>
          rw [hbr] at hp2
          have : ("@" : String) ++ actual = r2 := by simpa using hp2
          rw [← this]
          simp [String.data_append]
  · intro e2 r2 hhead hp2
    cases he2 : e2.data with
    | nil => rw [he2] at hhead; cases hhead
    | cons c rest =>
      rw [he2] at hhead
      simp only [List.headD_cons] at hhead
      subst hhead
      have hpm := parseModifier_head defaultBind e2 '+' rest he2
      simp at hpm
      unfold processEndpoint at hp2
      rw [hpm] at hp2
      simp only at hp2
      cases hrt : resolveTcp env.resolve false (String.mk rest) with
      | none => rw [hrt] at hp2; cases hp2
      | some a =>
        rw [hrt] at hp2
        unfold attachEndpointStage at hp2
        simp only [Bool.false_eq_true, if_false] at hp2
        cases hco : env.connectOk a with
        | false => rw [hco] at hp2; cases hp2
        | true =>
          rw [hco] at hp2
          simp only [if_true] at hp2
          have : ("+" : String) ++ a = r2 := by simpa using hp2
          rw [← this]
          simp [String.data_append]
  · intro hsucc
    unfold AttachChannel at hsucc ⊢
    cases hae : attachEndpoints env (chan.fMethod = "bind")
        ((splitCommaList chan.fAddress.data).map String.mk) with
    | none => rw [hae] at hsucc; exact Bool.noConfusion hsucc
    | some eps =>
      by_cases hne : joinComma eps ≠ chan.fAddress
      · simp [hne]
      · simp [hne]


/-- C4: for a `tcp://host:port` endpoint (colon-free host), the host is
resolved to an IP and substituted exactly when the endpoint is being
connected or the host differs from `*` (binding to `*` leaves the address
untouched for every resolver); an empty resolution fails the endpoint,
and a failing endpoint makes `AttachChannel` return `false` for the whole
channel. -/
theorem C4_host_resolution (resolve : String → String) (env : AttachEnv)
    (bind : Bool) (h p e : String) (chan : Channel) (hcolon : ':' ∉ h.data) :
    ((bind = false ∨ h ≠ "*") →
        resolveTcp resolve bind ("tcp://" ++ h ++ ":" ++ p) =
          (if resolve h = "" then none
           else some ("tcp://" ++ resolve h ++ ":" ++ p))) ∧
      (bind = true → h = "*" →
        resolveTcp resolve bind ("tcp://" ++ h ++ ":" ++ p)
          = some ("tcp://" ++ h ++ ":" ++ p)) ∧
      (∀ d e2, resolveTcp env.resolve (parseModifier d e2).1 (parseModifier d e2).2.2 = none →
        processEndpoint env d e2 = none) ∧
      (e ∈ (splitCommaList chan.fAddress.data).map String.mk →
        processEndpoint env (chan.fMethod = "bind") e = none →
        (AttachChannel env chan).success = false) := by
  refine ⟨?_, ?_, ?_, ?_⟩
  · intro hcond
    rw [resolveTcp_tcp resolve bind h p hcolon]
    rcases hcond with hb | hstar
    · subst hb; simp
    · simp [hstar]
  · intro hb hstar
    subst hb; subst hstar
    rw [resolveTcp_tcp resolve true "*" p hcolon]
    simp
  · intro d e2 hnone
    unfold processEndpoint
    rw [hnone]
  · intro hmem hnone
    unfold AttachChannel
    rw [attachEndpoints_none_of_mem env (decide (chan.fMethod = "bind"))
      (List.map String.mk (splitCommaList chan.fAddress.data)) e hmem hnone]

/-- Witness for C3: the concrete endpoint `@tcp://host:77` attaches to
`@tcp://1.2.3.4:77`, which still starts with `@`. -/
theorem C3_address_roundtrip_witness :
    ("@tcp://1.2.3.4:77" : String).data.headD ' ' = '@' :=
  (C3_address_roundtrip envC34 true "host" "77" "@tcp://1.2.3.4:77" chanBindW
      (by decide) (by decide) (by decide)
      (fun actual ha => ⟨"77", (Option.some.inj ha).symm⟩)
      (by decide)).2.1 "@tcp://host:77" "@tcp://1.2.3.4:77" (by decide) (by decide)

/-- Witness for C4: binding `tcp://*:90` leaves the address untouched. -/
theorem C4_host_resolution_witness :
    resolveTcp envC34.resolve true ("tcp://" ++ "*" ++ ":" ++ "90")
      = some ("tcp://" ++ "*" ++ ":" ++ "90") :=
  (C4_host_resolution envC34.resolve envC34 true "*" "90" "x" chanBindW (by decide)).2.1 rfl rfl


/-- C1 (amended): for every driver activation and state whose handler
completes without raising and whose final `NewStatePending()` check reads
false, the handler's issued transition at that check follows
`amendedFinalTransition`: the `Binding`, `Connecting`,
`InitializingTask`, `ResettingTask` and `ResettingDevice` handlers issue
`Auto`; the `Running` handler issues `Stop` (not `Auto`); and the
`InitializingDevice` handler (its `Auto` is commented out in the source)
and the `Exiting` handler issue no transition at all. -/
theorem C1_auto_advance_amended (env : DeviceEnv) (s : State) (r : WrapperResult)
    (hres : handleState env s = some r) (hraise : r.raised = false)
    (hpend : r.finalPending = false) :
    r.issued = amendedFinalTransition s := by
  cases s with
  | InitializingDevice =>
    obtain rfl := Option.some.inj hres
    clear hres hraise hpend
    unfold InitWrapperResult
    by_cases ht : env.transportNameValid
    · simp only [ht, if_true]
      cases initChannelLists env.ifaceIP env.channels <;> rfl
    · simp only [ht, Bool.false_eq_true, if_false]
      rfl
  | Binding =>
    obtain rfl := Option.some.inj hres
    clear hres
    unfold BindWrapperResult at hraise hpend ⊢
    by_cases hempty : (AttachChannelsM env.validateB env.attachB env.bindingChans).isEmpty
    · simp only [hempty, if_true] at hpend ⊢
      simp [hpend, amendedFinalTransition]
    · simp only [hempty, Bool.false_eq_true, if_false] at hraise
      cases hraise
  | Connecting =>
    obtain rfl := Option.some.inj hres
    clear hres
    unfold ConnectWrapperResult at hraise hpend ⊢
    cases hout : ConnectWrapperOutcome env with
    | timeout u t n2 =>
      rw [hout] at hraise
      cases hraise
    | done rem t n2 =>
      rw [hout] at hpend
      simp at hpend
      simp [hpend, amendedFinalTransition]
  | InitializingTask =>
    obtain rfl := Option.some.inj hres
    clear hres
    unfold InitTaskWrapperResult at hpend ⊢
    simp only at hpend
    simp [hpend, amendedFinalTransition]
  | Running =>
    simp only [handleState] at hres
    unfold RunWrapperResult at hres
    cases hpath : runWrapperPath env with
    | single =>
      rw [hpath] at hres
      cases hexit : HandleSingleChannelInputExit env with
      | none => rw [hexit] at hres; cases hres
      | some n =>
        rw [hexit] at hres
        obtain rfl := Option.some.inj hres
        simp only at hpend
        simp [hpend, amendedFinalTransition]
    | multi =>
      rw [hpath] at hres
      obtain rfl := Option.some.inj hres
      simp only at hpend
      simp [hpend, amendedFinalTransition]
    | userRun =>
      rw [hpath] at hres
      cases hexit : recvLoop env.pending env.conditionalRun env.runFuel 0 with
      | none => rw [hexit] at hres; cases hres
      | some n =>
        rw [hexit] at hres
        obtain rfl := Option.some.inj hres
        simp only at hpend
        simp [hpend, amendedFinalTransition]
  | ResettingTask =>
    obtain rfl := Option.some.inj hres
    clear hres
    unfold ResetTaskWrapperResult at hpend ⊢
    simp only at hpend
    simp [hpend, amendedFinalTransition]
  | ResettingDevice =>
    obtain rfl := Option.some.inj hres
    clear hres
    unfold ResetWrapperResult at hpend ⊢
    simp only at hpend
    simp [hpend, amendedFinalTransition]
  | Exiting => obtain rfl := Option.some.inj hres; rfl
  | Ok => obtain rfl := Option.some.inj hres; rfl
  | Idle => obtain rfl := Option.some.inj hres; rfl
  | Initialized => obtain rfl := Option.some.inj hres; rfl
  | Bound => obtain rfl := Option.some.inj hres; rfl
  | DeviceReady => obtain rfl := Option.some.inj hres; rfl
  | Ready => obtain rfl := Option.some.inj hres; rfl
  | Error => obtain rfl := Option.some.inj hres; rfl

/-- C1 counterexample: at the concrete activation `cexEnvC1`, the
`Running` handler completes without raising with no state pending at its
final check, yet issues `Stop` — not the `Auto` the claim requires — and
the `InitializingDevice` handler, also completing cleanly, issues no
transition at all. -/
theorem C1_auto_advance_counterexample :
    handleState cexEnvC1 State.Running =
        some { raised := false, issued := [Transition.Stop], finalPending := false } ∧
      Transition.Auto ∉ [Transition.Stop] ∧
      handleState cexEnvC1 State.InitializingDevice =
        some { raised := false, issued := [], finalPending := false } ∧
      ([] : List Transition) ≠ [Transition.Auto] := by
  refine ⟨by decide, by decide, by decide, by decide⟩

/-- Witness for C1 (amended) at the `InitializingTask` handler of a
concrete activation. -/
theorem C1_auto_advance_witness :
    handleState cexEnvC1 State.InitializingTask =
        some { raised := false, issued := [Transition.Auto], finalPending := false } ∧
      WrapperResult.issued
          { raised := false, issued := [Transition.Auto], finalPending := false }
        = amendedFinalTransition State.InitializingTask :=
  ⟨by decide,
   C1_auto_advance_amended cexEnvC1 State.InitializingTask
     { raised := false, issued := [Transition.Auto], finalPending := false }
     (by decide) rfl rfl⟩

end FairMQ
